import Mathlib

/-!
Verification of the heart-disease risk assessment pipeline in `app.py`.

The app reads sixteen raw patient answers from a form, encodes the
categorical answers by their zero-based position in fixed label lists,
assembles a 16-column feature frame, min-max-scales four numeric columns
with a previously fitted scaler, calls an opaque trained classifier for a
class label and a probability, and renders a verdict, a risk percentage,
a guidance tier, guidance text and a list of risk-factor flags.

The trained classifier (`heart_disease_model.pkl`) and the fitted scaler
(`minmax_scaler.pkl`) are opaque artifacts loaded with `joblib.load`; they
are not part of the repository source.  They are modelled abstractly: the
classifier as a pair of functions on feature vectors, the scaler's
transform from the spec's min-max formula.  Real numbers are modelled
as rationals; Python `round(x, 1)` is modelled exactly on rationals with
its ties-to-even behaviour.
-/

/-- Raw patient answers, one field per form control in `app.py`
(selectbox / radio answers are the literal strings, sliders are numbers). -/
structure PatientInput where
  age_category : String
  sex : String
  bmi : ℚ
  physical_health : ℕ
  mental_health : ℕ
  sleep_time : ℕ
  stroke : String
  diff_walking : String
  asthma : String
  kidney_disease : String
  skin_cancer : String
  diabetic : String
  gen_health : String
  smoking : String
  alcohol : String
  physical_activity : String
  deriving DecidableEq, Repr

/-- `gen_health_options` from app.py line 32. -/
def gen_health_options : List String :=
  ["Poor", "Fair", "Good", "Very good", "Excellent"]

/-- `diabetic_options` from app.py lines 33-34. -/
def diabetic_options : List String :=
  ["No", "Yes", "No, borderline diabetes", "Yes (during pregnancy)"]

/-- `age_categories` from app.py lines 35-39. -/
def age_categories : List String :=
  ["18-24", "25-29", "30-34", "35-39", "40-44",
   "45-49", "50-54", "55-59", "60-64", "65-69",
   "70-74", "75-79", "80 or older"]

/-- Python `list.index`: zero-based position of the first occurrence, or
`none` where Python raises `ValueError` (value absent from the list). -/
def idx? (l : List String) (v : String) : Option ℕ :=
  match l with
  | [] => none
  | x :: xs => if x = v then some 0 else (idx? xs v).map (· + 1)

/-- The 16-column feature frame `input_df` built at app.py lines 86-107,
one field per column, in the dictionary's order. -/
structure FeatureVector where
  BMI : ℚ
  Smoking : ℚ
  AlcoholDrinking : ℚ
  Stroke : ℚ
  PhysicalHealth : ℚ
  MentalHealth : ℚ
  DiffWalking : ℚ
  Sex : ℚ
  AgeCategory : ℚ
  Diabetic : ℚ
  PhysicalActivity : ℚ
  GenHealth : ℚ
  SleepTime : ℚ
  Asthma : ℚ
  KidneyDisease : ℚ
  SkinCancer : ℚ
  deriving DecidableEq, Repr

/-- The named columns of the frame in the order they are declared in the
`input_data` dictionary (app.py lines 86-104). -/
def FeatureVector.toPairs (fv : FeatureVector) : List (String × ℚ) :=
  [("BMI", fv.BMI),
   ("Smoking", fv.Smoking),
   ("AlcoholDrinking", fv.AlcoholDrinking),
   ("Stroke", fv.Stroke),
   ("PhysicalHealth", fv.PhysicalHealth),
   ("MentalHealth", fv.MentalHealth),
   ("DiffWalking", fv.DiffWalking),
   ("Sex", fv.Sex),
   ("AgeCategory", fv.AgeCategory),
   ("Diabetic", fv.Diabetic),
   ("PhysicalActivity", fv.PhysicalActivity),
   ("GenHealth", fv.GenHealth),
   ("SleepTime", fv.SleepTime),
   ("Asthma", fv.Asthma),
   ("KidneyDisease", fv.KidneyDisease),
   ("SkinCancer", fv.SkinCancer)]

/-- Assembly of `input_data` (app.py lines 86-104): binaries encode
`1 if answer == "Yes" else 0`, sex encodes male=1, the three categorical
fields encode by `list.index`, raw numerics pass through.  Returns `none`
where Python's `list.index` would raise (caught by the handler below). -/
def assemble (inp : PatientInput) : Option FeatureVector := do
  let age ← idx? age_categories inp.age_category
  let dia ← idx? diabetic_options inp.diabetic
  let gh ← idx? gen_health_options inp.gen_health
  pure
    { BMI := inp.bmi
      Smoking := if inp.smoking = "Yes" then 1 else 0
      AlcoholDrinking := if inp.alcohol = "Yes" then 1 else 0
      Stroke := if inp.stroke = "Yes" then 1 else 0
      PhysicalHealth := inp.physical_health
      MentalHealth := inp.mental_health
      DiffWalking := if inp.diff_walking = "Yes" then 1 else 0
      Sex := if inp.sex = "Male" then 1 else 0
      AgeCategory := age
      Diabetic := dia
      PhysicalActivity := if inp.physical_activity = "Yes" then 1 else 0
      GenHealth := gh
      SleepTime := inp.sleep_time
      Asthma := if inp.asthma = "Yes" then 1 else 0
      KidneyDisease := if inp.kidney_disease = "Yes" then 1 else 0
      SkinCancer := if inp.skin_cancer = "Yes" then 1 else 0 }

/-- Modelled from the spec: the fitted `minmax_scaler.pkl` artifact is not
in the repository; per §4.3 it holds min/max bounds, fixed at training
time, for the four scaled fields BMI, PhysicalHealth, MentalHealth,
SleepTime. -/
structure ScalingParameters where
  bmi_min : ℚ
  bmi_max : ℚ
  ph_min : ℚ
  ph_max : ℚ
  mh_min : ℚ
  mh_max : ℚ
  st_min : ℚ
  st_max : ℚ
  deriving DecidableEq, Repr

/-- Modelled from the spec: the min-max transform `(x - min) / (max - min)`
of §4.3, applied per field by `scaler.transform`. -/
def minmax (lo hi x : ℚ) : ℚ := (x - lo) / (hi - lo)

/-- `input_df[features_to_scale] = scaler.transform(...)` at app.py lines
110-113: exactly the columns BMI, PhysicalHealth, MentalHealth, SleepTime
are replaced by their scaled values; the other columns are untouched. -/
def scale (sp : ScalingParameters) (fv : FeatureVector) : FeatureVector :=
  { fv with
    BMI := minmax sp.bmi_min sp.bmi_max fv.BMI
    PhysicalHealth := minmax sp.ph_min sp.ph_max fv.PhysicalHealth
    MentalHealth := minmax sp.mh_min sp.mh_max fv.MentalHealth
    SleepTime := minmax sp.st_min sp.st_max fv.SleepTime }

/-- Modelled from the spec: the trained `heart_disease_model.pkl` artifact
is not in the repository; per §4.4 it exposes a class decision
(`model.predict`) and a class-1 probability (`model.predict_proba[0][1]`),
both pure functions of the feature vector. -/
structure Classifier where
  predict : FeatureVector → ℕ
  predictProba : FeatureVector → ℚ

/-- Python `round` on an exact rational: nearest integer, ties to even. -/
def pyRoundInt (x : ℚ) : ℤ :=
  let f := ⌊x⌋
  if x - f < 1/2 then f
  else if 1/2 < x - f then f + 1
  else if f % 2 = 0 then f else f + 1

/-- Python `round(x, 1)`: round to one decimal place (app.py line 120). -/
def pyRound1 (x : ℚ) : ℚ := (pyRoundInt (x * 10) : ℚ) / 10

/-- Verdict rendered at app.py lines 128-131. -/
inductive Verdict where
  | AtRisk
  | NotAtRisk
  deriving DecidableEq, Repr

/-- Guidance tier chosen at app.py line 143. -/
inductive GuidanceTier where
  | Elevated
  | Low
  deriving DecidableEq, Repr

/-- The elevated-risk guidance text (app.py lines 144-151), one line per
markdown line of the `st.warning` block. -/
def elevatedGuidanceText : String :=
  "**This patient shows elevated risk for heart disease.**\n" ++
  "Recommended actions:\n" ++
  "- Schedule cardiology consultation within 2 weeks\n" ++
  "- Order ECG and lipid profile tests\n" ++
  "- Provide heart health education materials\n" ++
  "- Schedule follow-up appointment in 1 month"

/-- The low-risk guidance text (app.py lines 153-159). -/
def lowGuidanceText : String :=
  "**This patient shows low risk for heart disease.**\n" ++
  "Recommended actions:\n" ++
  "- Reinforce heart-healthy lifestyle habits\n" ++
  "- Provide preventive care education\n" ++
  "- Schedule annual wellness check"

/-- The `risk_factors` list built at app.py lines 163-173: five
independent condition checks, appended in program order.  Numeric values
interpolated into flags use the rational's string form. -/
def riskFactors (inp : PatientInput) : List String :=
  let rf : List String := []
  let rf := if inp.smoking = "Yes" then rf ++ ["Smoking"] else rf
  let rf := if 30 ≤ inp.bmi
    then rf ++ ["Obesity (BMI: " ++ toString inp.bmi ++ ")"] else rf
  let rf := if 15 ≤ inp.physical_health
    then rf ++ ["Frequent physical health issues"] else rf
  let rf := if inp.age_category ∈
      ["55-59", "60-64", "65-69", "70-74", "75-79", "80 or older"]
    then rf ++ ["Age (" ++ inp.age_category ++ ")"] else rf
  let rf := if inp.diabetic ≠ "No" then rf ++ ["Diabetes"] else rf
  rf

/-- The risk-factor summary line written at app.py lines 175-178: the
joined flags when the list is non-empty, an explicit no-major-risk-factors
message when it is empty. -/
def riskSummary (rf : List String) : String :=
  if rf.isEmpty then "No major risk factors identified"
  else "Identified risk factors: " ++ String.intercalate ", " rf

/-- Everything the app renders for one submitted assessment
(app.py lines 122-178). -/
structure AssessmentResult where
  verdict : Verdict
  probability : ℚ
  riskPercentage : ℚ
  guidanceTier : GuidanceTier
  guidance : String
  riskFactors : List String
  riskSummary : String
  deriving DecidableEq, Repr

/-- Interpretation of the classifier outputs for a given raw input
(app.py lines 117-178): verdict from the class label, risk percentage
`round(probability * 100, 1)`, guidance from `probability >= 0.5`, risk
factors from the raw answers. -/
def interpret (inp : PatientInput) (prediction : ℕ) (probability : ℚ) :
    AssessmentResult :=
  let rf := riskFactors inp
  { verdict := if prediction = 1 then .AtRisk else .NotAtRisk
    probability := probability
    riskPercentage := pyRound1 (probability * 100)
    guidanceTier := if 1/2 ≤ probability then .Elevated else .Low
    guidance := if 1/2 ≤ probability then elevatedGuidanceText
      else lowGuidanceText
    riskFactors := rf
    riskSummary := riskSummary rf }

/-- The generic failure message of the handler at app.py line 181. -/
def assessFailedMsg : String :=
  "Assessment failed: Please check all fields are complete"

/-- One submitted assessment (app.py lines 83-181): assemble, scale,
predict, interpret; any failure inside the `try` block is caught and
reported as the one generic message. -/
def assess (model : Classifier) (sp : ScalingParameters)
    (inp : PatientInput) : Except String AssessmentResult :=
  match assemble inp with
  | none => .error assessFailedMsg
  | some fv =>
    let scaled := scale sp fv
    let prediction := model.predict scaled
    let probability := model.predictProba scaled
    .ok (interpret inp prediction probability)

/-- Outcome of the artifact-loading block at app.py lines 6-12. -/
inductive AppStart where
  | serving (model : Classifier) (sp : ScalingParameters)
  | stopped (msg : String)

/-- Startup (app.py lines 6-12): if loading either artifact fails, the
app shows an error and calls `st.stop()` before any form is rendered. -/
def startup (loadedModel : Option Classifier)
    (loadedScaler : Option ScalingParameters) : AppStart :=
  match loadedModel, loadedScaler with
  | some m, some s => .serving m s
  | _, _ => .stopped "Error loading model"

/-- Request handling relative to the startup outcome: after `st.stop()`
no form exists, so no request is ever processed. -/
def handleRequest (st : AppStart) (inp : PatientInput) :
    Option (Except String AssessmentResult) :=
  match st with
  | .stopped _ => none
  | .serving m s => some (assess m s inp)

/-- Spec-side reading of §4.5's flag list: exactly the applicable flags
among the five, concatenated in the spec's fixed order.  Compared against
`riskFactors`, which follows the source's sequential appends. -/
def specRiskFactors (inp : PatientInput) : List String :=
  (if inp.smoking = "Yes" then ["Smoking"] else []) ++
  (if 30 ≤ inp.bmi then ["Obesity (BMI: " ++ toString inp.bmi ++ ")"]
    else []) ++
  (if 15 ≤ inp.physical_health then ["Frequent physical health issues"]
    else []) ++
  (if inp.age_category ∈
      ["55-59", "60-64", "65-69", "70-74", "75-79", "80 or older"]
    then ["Age (" ++ inp.age_category ++ ")"] else []) ++
  (if inp.diabetic ≠ "No" then ["Diabetes"] else [])

/-- A fully specified in-domain patient, used as a concrete test point. -/
def testInput : PatientInput :=
  { age_category := "60-64", sex := "Male", bmi := 32,
    physical_health := 20, mental_health := 5, sleep_time := 7,
    stroke := "No", diff_walking := "No", asthma := "No",
    kidney_disease := "No", skin_cancer := "No", diabetic := "Yes",
    gen_health := "Good", smoking := "Yes", alcohol := "No",
    physical_activity := "Yes" }

/-- An in-domain patient meeting none of the five flag conditions. -/
def lowRiskInput : PatientInput :=
  { age_category := "30-34", sex := "Female", bmi := 22,
    physical_health := 0, mental_health := 0, sleep_time := 8,
    stroke := "No", diff_walking := "No", asthma := "No",
    kidney_disease := "No", skin_cancer := "No", diabetic := "No",
    gen_health := "Excellent", smoking := "No", alcohol := "No",
    physical_activity := "Yes" }

/-- `testInput` with an age bracket outside `age_categories`. -/
def badAgeInput : PatientInput :=
  { testInput with age_category := "200 or older" }

/-- `testInput` with a diabetic status outside `diabetic_options`. -/
def badDiabeticInput : PatientInput :=
  { testInput with diabetic := "Maybe" }

/-- Deterministic classifier stub returning class 1, probability 0.82. -/
def stub82 : Classifier :=
  { predict := fun _ => 1, predictProba := fun _ => 82/100 }

/-- Deterministic classifier stub returning class 0, probability 0.1. -/
def stubLow : Classifier :=
  { predict := fun _ => 0, predictProba := fun _ => 1/10 }

/-- Concrete scaling bounds (the sliders' ranges), for test points. -/
def sp0 : ScalingParameters :=
  { bmi_min := 10, bmi_max := 50, ph_min := 0, ph_max := 30,
    mh_min := 0, mh_max := 30, st_min := 1, st_max := 12 }

/-- A second, different set of scaling bounds, for test points. -/
def sp1 : ScalingParameters :=
  { bmi_min := 12, bmi_max := 48, ph_min := 0, ph_max := 28,
    mh_min := 0, mh_max := 29, st_min := 2, st_max := 11 }

/-- The feature vector assembled from `testInput`. -/
def testFeatureVector : FeatureVector :=
  { BMI := 32, Smoking := 1, AlcoholDrinking := 0, Stroke := 0,
    PhysicalHealth := 20, MentalHealth := 5, DiffWalking := 0, Sex := 1,
    AgeCategory := 8, Diabetic := 1, PhysicalActivity := 1, GenHealth := 2,
    SleepTime := 7, Asthma := 0, KidneyDisease := 0, SkinCancer := 0 }

theorem idx_get {l : List String} {v : String} {i : ℕ}
    (h : idx? l v = some i) : l.get? i = some v := by
  induction l generalizing i with
  | nil => simp [idx?] at h
  | cons x xs ih =>
    by_cases hx : x = v
    · simp [idx?, hx] at h
      simp [← h, hx]
    · simp [idx?, hx] at h
      obtain ⟨j, hj, rfl⟩ := h
      simpa using ih hj

theorem idx_lt {l : List String} {v : String} {i : ℕ}
    (h : idx? l v = some i) : i < l.length :=
  List.get?_eq_some.mp (idx_get h) |>.1

theorem idx_none {l : List String} {v : String} :
    idx? l v = none ↔ v ∉ l := by
  induction l with
  | nil => simp [idx?]
  | cons x xs ih =>
    by_cases hx : x = v
    · simp [idx?, hx]
    · simp [idx?, hx, Option.map_eq_none, ih, Ne.symm hx]

theorem assemble_some_inv {inp : PatientInput} {fv : FeatureVector}
    (h : assemble inp = some fv) :
    ∃ a d g, idx? age_categories inp.age_category = some a ∧
      idx? diabetic_options inp.diabetic = some d ∧
      idx? gen_health_options inp.gen_health = some g ∧
      fv = { BMI := inp.bmi
             Smoking := if inp.smoking = "Yes" then 1 else 0
             AlcoholDrinking := if inp.alcohol = "Yes" then 1 else 0
             Stroke := if inp.stroke = "Yes" then 1 else 0
             PhysicalHealth := inp.physical_health
             MentalHealth := inp.mental_health
             DiffWalking := if inp.diff_walking = "Yes" then 1 else 0
             Sex := if inp.sex = "Male" then 1 else 0
             AgeCategory := a
             Diabetic := d
             PhysicalActivity := if inp.physical_activity = "Yes" then 1
               else 0
             GenHealth := g
             SleepTime := inp.sleep_time
             Asthma := if inp.asthma = "Yes" then 1 else 0
             KidneyDisease := if inp.kidney_disease = "Yes" then 1 else 0
             SkinCancer := if inp.skin_cancer = "Yes" then 1 else 0 } := by
  rcases hA : idx? age_categories inp.age_category with _ | a
  · simp [assemble, hA] at h
  rcases hD : idx? diabetic_options inp.diabetic with _ | d
  · simp [assemble, hA, hD] at h
  rcases hG : idx? gen_health_options inp.gen_health with _ | g
  · simp [assemble, hA, hD, hG] at h
  refine ⟨a, d, g, rfl, rfl, rfl, ?_⟩
  simp [assemble, hA, hD, hG] at h
  exact h.symm

/-- C4: for every in-domain PatientInput, assembly yields a vector of
exactly 16 named slots in the canonical order; categorical slots hold the
zero-based position of the answer in their fixed label lists, binary and
sex slots hold 1/0, and the raw numerics pass through unmodified. -/
theorem c4_assemble_canonical (inp : PatientInput) (fv : FeatureVector)
    (h : assemble inp = some fv) :
    fv.toPairs.length = 16 ∧
    fv.toPairs.map Prod.fst =
      ["BMI", "Smoking", "AlcoholDrinking", "Stroke", "PhysicalHealth",
       "MentalHealth", "DiffWalking", "Sex", "AgeCategory", "Diabetic",
       "PhysicalActivity", "GenHealth", "SleepTime", "Asthma",
       "KidneyDisease", "SkinCancer"] ∧
    fv.BMI = inp.bmi ∧
    fv.PhysicalHealth = inp.physical_health ∧
    fv.MentalHealth = inp.mental_health ∧
    fv.SleepTime = inp.sleep_time ∧
    fv.Smoking = (if inp.smoking = "Yes" then 1 else 0) ∧
    fv.AlcoholDrinking = (if inp.alcohol = "Yes" then 1 else 0) ∧
    fv.Stroke = (if inp.stroke = "Yes" then 1 else 0) ∧
    fv.DiffWalking = (if inp.diff_walking = "Yes" then 1 else 0) ∧
    fv.Sex = (if inp.sex = "Male" then 1 else 0) ∧
    fv.PhysicalActivity =
      (if inp.physical_activity = "Yes" then 1 else 0) ∧
    fv.Asthma = (if inp.asthma = "Yes" then 1 else 0) ∧
    fv.KidneyDisease = (if inp.kidney_disease = "Yes" then 1 else 0) ∧
    fv.SkinCancer = (if inp.skin_cancer = "Yes" then 1 else 0) ∧
    (∃ i, idx? age_categories inp.age_category = some i ∧
      age_categories.get? i = some inp.age_category ∧
      fv.AgeCategory = i) ∧
    (∃ i, idx? diabetic_options inp.diabetic = some i ∧
      diabetic_options.get? i = some inp.diabetic ∧ fv.Diabetic = i) ∧
    (∃ i, idx? gen_health_options inp.gen_health = some i ∧
      gen_health_options.get? i = some inp.gen_health ∧
      fv.GenHealth = i) := by
  obtain ⟨a, d, g, hA, hD, hG, rfl⟩ := assemble_some_inv h
  refine ⟨rfl, rfl, rfl, rfl, rfl, rfl, rfl, rfl, rfl, rfl, rfl, rfl,
    rfl, rfl, rfl, ⟨a, hA, idx_get hA, rfl⟩, ⟨d, hD, idx_get hD, rfl⟩,
    ⟨g, hG, idx_get hG, rfl⟩⟩

/-- C4 witness at a concrete input. -/
theorem c4_assemble_canonical_witness :
    testFeatureVector.toPairs.length = 16 :=
  (c4_assemble_canonical testInput testFeatureVector (by decide)).1

/-- C10: for every in-domain PatientInput, every categorical slot of the
assembled vector is an integer in its fixed range (binary slots and Sex
in 0..1, AgeCategory in 0..12, Diabetic in 0..3, GenHealth in 0..4), and
those slots are handed unchanged through scaling to the classifier. -/
theorem c10_categorical_ranges (inp : PatientInput) (fv : FeatureVector)
    (h : assemble inp = some fv) :
    (fv.Smoking = 0 ∨ fv.Smoking = 1) ∧
    (fv.AlcoholDrinking = 0 ∨ fv.AlcoholDrinking = 1) ∧
    (fv.Stroke = 0 ∨ fv.Stroke = 1) ∧
    (fv.DiffWalking = 0 ∨ fv.DiffWalking = 1) ∧
    (fv.Sex = 0 ∨ fv.Sex = 1) ∧
    (fv.PhysicalActivity = 0 ∨ fv.PhysicalActivity = 1) ∧
    (fv.Asthma = 0 ∨ fv.Asthma = 1) ∧
    (fv.KidneyDisease = 0 ∨ fv.KidneyDisease = 1) ∧
    (fv.SkinCancer = 0 ∨ fv.SkinCancer = 1) ∧
    (∃ n : ℕ, fv.AgeCategory = n ∧ n ≤ 12) ∧
    (∃ n : ℕ, fv.Diabetic = n ∧ n ≤ 3) ∧
    (∃ n : ℕ, fv.GenHealth = n ∧ n ≤ 4) ∧
    (∀ sp : ScalingParameters,
      (scale sp fv).Smoking = fv.Smoking ∧
      (scale sp fv).AlcoholDrinking = fv.AlcoholDrinking ∧
      (scale sp fv).Stroke = fv.Stroke ∧
      (scale sp fv).DiffWalking = fv.DiffWalking ∧
      (scale sp fv).Sex = fv.Sex ∧
      (scale sp fv).PhysicalActivity = fv.PhysicalActivity ∧
      (scale sp fv).Asthma = fv.Asthma ∧
      (scale sp fv).KidneyDisease = fv.KidneyDisease ∧
      (scale sp fv).SkinCancer = fv.SkinCancer ∧
      (scale sp fv).AgeCategory = fv.AgeCategory ∧
      (scale sp fv).Diabetic = fv.Diabetic ∧
      (scale sp fv).GenHealth = fv.GenHealth) := by
  obtain ⟨a, d, g, hA, hD, hG, rfl⟩ := assemble_some_inv h
  have hA12 : a ≤ 12 := Nat.lt_succ_iff.mp (idx_lt hA)
  have hD3 : d ≤ 3 := Nat.lt_succ_iff.mp (idx_lt hD)
  have hG4 : g ≤ 4 := Nat.lt_succ_iff.mp (idx_lt hG)
  refine ⟨?_, ?_, ?_, ?_, ?_, ?_, ?_, ?_, ?_,
    ⟨a, rfl, hA12⟩, ⟨d, rfl, hD3⟩, ⟨g, rfl, hG4⟩,
    fun sp => ⟨rfl, rfl, rfl, rfl, rfl, rfl, rfl, rfl, rfl, rfl, rfl,
      rfl⟩⟩ <;>
  · dsimp only
    split <;> simp

/-- C10 witness at a concrete input. -/
theorem c10_categorical_ranges_witness :
    testFeatureVector.Smoking = 0 ∨ testFeatureVector.Smoking = 1 :=
  (c10_categorical_ranges testInput testFeatureVector (by decide)).1

/-- C5: scaling replaces exactly the four numeric fields BMI,
PhysicalHealth, MentalHealth, SleepTime by their min-max normalization
`(x - min) / (max - min)`; the other twelve fields of every vector are
unchanged. -/
theorem c5_scale_minmax_frame (sp : ScalingParameters)
    (fv : FeatureVector) :
    (scale sp fv).BMI = (fv.BMI - sp.bmi_min) / (sp.bmi_max - sp.bmi_min) ∧
    (scale sp fv).PhysicalHealth =
      (fv.PhysicalHealth - sp.ph_min) / (sp.ph_max - sp.ph_min) ∧
    (scale sp fv).MentalHealth =
      (fv.MentalHealth - sp.mh_min) / (sp.mh_max - sp.mh_min) ∧
    (scale sp fv).SleepTime =
      (fv.SleepTime - sp.st_min) / (sp.st_max - sp.st_min) ∧
    (scale sp fv).Smoking = fv.Smoking ∧
    (scale sp fv).AlcoholDrinking = fv.AlcoholDrinking ∧
    (scale sp fv).Stroke = fv.Stroke ∧
    (scale sp fv).DiffWalking = fv.DiffWalking ∧
    (scale sp fv).Sex = fv.Sex ∧
    (scale sp fv).AgeCategory = fv.AgeCategory ∧
    (scale sp fv).Diabetic = fv.Diabetic ∧
    (scale sp fv).PhysicalActivity = fv.PhysicalActivity ∧
    (scale sp fv).GenHealth = fv.GenHealth ∧
    (scale sp fv).Asthma = fv.Asthma ∧
    (scale sp fv).KidneyDisease = fv.KidneyDisease ∧
    (scale sp fv).SkinCancer = fv.SkinCancer :=
  ⟨rfl, rfl, rfl, rfl, rfl, rfl, rfl, rfl, rfl, rfl, rfl, rfl, rfl, rfl,
   rfl, rfl⟩

/-- C3: the flag list contains exactly the applicable flags among the
five conditions, in the fixed order smoking, BMI ≥ 30, physical-health
days ≥ 15, high age bracket, diabetic ≠ "No"; an input meeting none of
them yields the explicit no-major-risk-factors message. -/
theorem c3_risk_factor_flags (inp : PatientInput) :
    riskFactors inp = specRiskFactors inp ∧
    (riskFactors inp = [] →
      riskSummary (riskFactors inp) = "No major risk factors identified") := by
  constructor
  · simp only [riskFactors, specRiskFactors]
    split_ifs <;> simp
  · intro h
    rw [h]
    rfl

/-- C3 witness: a concrete input meeting none of the five conditions. -/
theorem c3_risk_factor_flags_witness :
    riskSummary (riskFactors lowRiskInput) =
      "No major risk factors identified" :=
  (c3_risk_factor_flags lowRiskInput).2 (by decide)

/-- C2: the verdict is AtRisk iff the class label is 1, the guidance
tier is Elevated iff the probability is at least 0.5, each independent
of the other; at class label 0 with probability exactly 0.5 the result
is simultaneously NotAtRisk and Elevated. -/
theorem c2_verdict_tier_independent (inp : PatientInput) (label : ℕ)
    (p : ℚ) :
    ((interpret inp label p).verdict = .AtRisk ↔ label = 1) ∧
    ((interpret inp label p).guidanceTier = .Elevated ↔ 1/2 ≤ p) ∧
    (interpret inp 0 (1/2)).verdict = .NotAtRisk ∧
    (interpret inp 0 (1/2)).guidanceTier = .Elevated := by
  refine ⟨?_, ?_, ?_, ?_⟩
  · simp only [interpret]
    split_ifs with h <;> simp [h]
  · simp only [interpret]
    split_ifs with h <;> simp [h]
    · rwa [one_div] at h
    · rw [one_div] at h
      exact lt_of_not_le h
  · simp [interpret]
  · simp [interpret]

/-- C6: the reported risk percentage is `round(probability * 100, 1)`;
at probability 0.4567 it is 45.7, at 1.0 it is 100.0, at 0.0 it is
0.0. -/
theorem c6_risk_percentage (inp : PatientInput) (label : ℕ) (p : ℚ) :
    (interpret inp label p).riskPercentage = pyRound1 (p * 100) ∧
    (interpret inp label (4567/10000)).riskPercentage = 457/10 ∧
    (interpret inp label 1).riskPercentage = 100 ∧
    (interpret inp label 0).riskPercentage = 0 := by
  refine ⟨rfl, ?_, ?_, ?_⟩ <;>
  · simp only [interpret, pyRound1, pyRoundInt]
    norm_num

/-- C1: end-to-end, with any scaling bounds and the deterministic stub
returning class 1 and probability 0.82, assessing the fixed test patient
yields verdict AtRisk, risk percentage 82.0, guidance tier Elevated and
the elevated guidance text verbatim. -/
theorem c1_end_to_end (sp : ScalingParameters) :
    assess stub82 sp testInput = .ok (interpret testInput 1 (82/100)) ∧
    (interpret testInput 1 (82/100)).verdict = .AtRisk ∧
    (interpret testInput 1 (82/100)).riskPercentage = 82 ∧
    (interpret testInput 1 (82/100)).guidanceTier = .Elevated ∧
    (interpret testInput 1 (82/100)).guidance = elevatedGuidanceText := by
  refine ⟨rfl, rfl, ?_, ?_, ?_⟩
  · simp only [interpret, pyRound1, pyRoundInt]
    norm_num
  · simp only [interpret]
    norm_num
  · simp only [interpret]
    norm_num

/-- C9: the flag list depends only on the raw input: assessments of the
same raw input under different classifiers and different scaling bounds
produce the same flags, computed from the unscaled values. -/
theorem c9_flags_input_only (m₁ m₂ : Classifier)
    (sp₁ sp₂ : ScalingParameters) (inp : PatientInput)
    (r₁ r₂ : AssessmentResult)
    (h₁ : assess m₁ sp₁ inp = .ok r₁)
    (h₂ : assess m₂ sp₂ inp = .ok r₂) :
    r₁.riskFactors = riskFactors inp ∧
    r₂.riskFactors = riskFactors inp ∧
    r₁.riskFactors = r₂.riskFactors := by
  rcases hA : assemble inp with _ | fv
  · rw [assess, hA] at h₁
    exact absurd h₁ (by simp)
  · rw [assess, hA] at h₁
    rw [assess, hA] at h₂
    obtain rfl : interpret inp (m₁.predict (scale sp₁ fv))
        (m₁.predictProba (scale sp₁ fv)) = r₁ := by
      simpa using h₁
    obtain rfl : interpret inp (m₂.predict (scale sp₂ fv))
        (m₂.predictProba (scale sp₂ fv)) = r₂ := by
      simpa using h₂
    exact ⟨rfl, rfl, rfl⟩

/-- C9 witness: two different stub classifiers and scaling bounds on the
concrete test patient. -/
theorem c9_flags_input_only_witness :
    (interpret testInput 1 (82/100)).riskFactors =
      (interpret testInput 0 (1/10)).riskFactors :=
  (c9_flags_input_only stub82 stubLow sp0 sp1 testInput
    (interpret testInput 1 (82/100)) (interpret testInput 0 (1/10))
    rfl rfl).2.2

/-- C7 counterexample: requests failing on two different fields (an
unknown age bracket and an unknown diabetic status) produce the identical
fixed error report, which names neither the offending field nor its
value, so the failure is not reported with the failing field
identified. -/
theorem c7_counterexample :
    assess stub82 sp0 badAgeInput = .error assessFailedMsg ∧
    assess stub82 sp0 badDiabeticInput = .error assessFailedMsg ∧
    assess stub82 sp0 badAgeInput = assess stub82 sp0 badDiabeticInput ∧
    badAgeInput.age_category ≠ badDiabeticInput.age_category ∧
    badAgeInput.diabetic ≠ badDiabeticInput.diabetic ∧
    assessFailedMsg =
      "Assessment failed: Please check all fields are complete" :=
  ⟨rfl, rfl, rfl, by decide, by decide, rfl⟩

/-- C7 amended: a request with a categorical value outside its domain's
label list fails before any feature vector is produced and no prediction
is returned; the failure is reported to the caller, but only as the
generic complete-all-fields message, without the offending field or
value. -/
theorem c7_unknown_category_aborts (m : Classifier)
    (sp : ScalingParameters) (inp : PatientInput)
    (h : inp.age_category ∉ age_categories ∨
      inp.diabetic ∉ diabetic_options ∨
      inp.gen_health ∉ gen_health_options) :
    assemble inp = none ∧ assess m sp inp = .error assessFailedMsg := by
  have hn : assemble inp = none := by
    rcases h with h | h | h
    · simp [assemble, idx_none.mpr h]
    · rcases hA : idx? age_categories inp.age_category with _ | a <;>
        simp [assemble, hA, idx_none.mpr h]
    · rcases hA : idx? age_categories inp.age_category with _ | a <;>
        rcases hD : idx? diabetic_options inp.diabetic with _ | d <;>
        simp [assemble, hA, hD, idx_none.mpr h]
  refine ⟨hn, ?_⟩
  rw [assess, hn]

/-- C7 witness: the concrete request with an unknown age bracket. -/
theorem c7_unknown_category_aborts_witness :
    assemble badAgeInput = none ∧
    assess stub82 sp0 badAgeInput = .error assessFailedMsg :=
  c7_unknown_category_aborts stub82 sp0 badAgeInput (Or.inl (by decide))

/-- C8: if loading either artifact fails at process start, startup stops
with the model-loading error surfaced, and no request is ever served
afterwards. -/
theorem c8_model_unavailable_stops (lm : Option Classifier)
    (ls : Option ScalingParameters) (h : lm = none ∨ ls = none) :
    startup lm ls = .stopped "Error loading model" ∧
    ∀ inp, handleRequest (startup lm ls) inp = none := by
  have hs : startup lm ls = .stopped "Error loading model" := by
    rcases h with rfl | rfl
    · rfl
    · cases lm <;> rfl
  rw [hs]
  exact ⟨rfl, fun inp => rfl⟩

/-- C8 witness: a failed classifier load with a loadable scaler. -/
theorem c8_model_unavailable_stops_witness :
    handleRequest (startup none (some sp0)) testInput = none :=
  (c8_model_unavailable_stops none (some sp0) (Or.inl rfl)).2 testInput
